import Mathlib

/-!
Verification of the order-lifecycle and token-caching logic of a family of
PayPal wrapper services.  Each definition below is a shallow embedding of a
concrete JavaScript function from the repository (the source file and
function are named in the doc comment).  Network effects are made explicit:
a function that may perform an HTTP exchange returns, besides its value, the
list of requests it issues; process-wide mutable state (the token cache, the
in-memory order map) is passed and returned explicitly.
-/

namespace Paypal

/-! ## JavaScript truthiness helpers -/

/-- Truthiness of a possibly-absent JS string: absent and the empty string
are falsy. -/
def truthyStr : Option String → Bool
  | none => false
  | some s => s != ""

/-- Truthiness of a possibly-absent JS number (here an integer): absent and
zero are falsy. -/
def truthyInt : Option Int → Bool
  | none => false
  | some i => i != 0

/-- The JS idiom `x || d` for a possibly-absent string: the default is used
when the value is absent or empty. -/
def jsOr (o : Option String) (d : String) : String :=
  match o with
  | none => d
  | some s => if s = "" then d else s

/-! ## Access token provider with cache (index.js, generateAccessToken)

The source keeps two module-level variables `cachedToken` and `tokenExpiry`
and, on each call, returns the cached token when
`cachedToken && tokenExpiry && Date.now() < tokenExpiry - 300000`, otherwise
POSTs `grant_type=client_credentials` with Basic auth to
`PAYPAL_BASE_URL/v1/oauth2/token` and stores the fresh token with expiry
`Date.now() + expires_in * 1000`.  Time is in milliseconds, as in the
source. -/

structure TokenState where
  cachedToken : Option String
  tokenExpiry : Option Int
  deriving DecidableEq, Repr

/-- The JSON body of a successful token exchange, already parsed. -/
structure TokenResponse where
  access_token : String
  expires_in : Int
  deriving DecidableEq, Repr

/-- An outbound token-endpoint request; `authUser`/`authPass` are the pair
that the source base64-encodes into the HTTP Basic Authorization header. -/
structure TokenRequest where
  method : String
  url : String
  authUser : String
  authPass : String
  body : String
  deriving DecidableEq, Repr

/-- The one request `generateAccessToken` can issue (index.js line 177). -/
def oauthTokenRequest (baseUrl clientId clientSecret : String) : TokenRequest :=
  { method := "POST"
    url := baseUrl ++ "/v1/oauth2/token"
    authUser := clientId
    authPass := clientSecret
    body := "grant_type=client_credentials" }

/-- The cache-hit test of index.js line 171:
`cachedToken && tokenExpiry && Date.now() < tokenExpiry - 300000`. -/
def cacheValid (st : TokenState) (now : Int) : Bool :=
  truthyStr st.cachedToken && truthyInt st.tokenExpiry &&
    decide (now < st.tokenExpiry.getD 0 - 300000)

/-- index.js `generateAccessToken`, with the token-endpoint exchange made
explicit: given the cache state, the current time and the response the
provider would return, it yields the returned token, the new cache state and
the list of network requests performed. -/
def generateAccessToken (baseUrl clientId clientSecret : String)
    (st : TokenState) (now : Int) (resp : TokenResponse) :
    String × TokenState × List TokenRequest :=
  if cacheValid st now then
    (st.cachedToken.getD "", st, [])
  else
    (resp.access_token,
     { cachedToken := some resp.access_token
       tokenExpiry := some (now + resp.expires_in * 1000) },
     [oauthTokenRequest baseUrl clientId clientSecret])

/-- services/paypal.js generateAccessToken (lines 6-23): this variant keeps
no cache at all — there is no state to thread — so every call POSTs the
client-credentials grant with Basic auth and returns the response token,
storing nothing. -/
def generateAccessTokenServices (baseUrl clientId clientSecret : String)
    (resp : TokenResponse) : String × List TokenRequest :=
  (resp.access_token, [oauthTokenRequest baseUrl clientId clientSecret])

/-- Claim C1 (amended): in the index.js variant, a call with a cached token
valid beyond the 5-minute margin
returns the cached token with no network exchange and leaves the cache
unchanged; otherwise the call performs exactly the one POST to
baseUrl/v1/oauth2/token with Basic auth and body grant_type=client_credentials,
stores the response token with absolute expiry now + expires_in seconds, and
returns it; consequently a second call that falls inside the
expiry-minus-margin window of the resulting cache performs no exchange, so
two such calls perform at most one exchange in total.  The services/paypal.js
variant of the operation has no cache: every call performs exactly one such
POST and stores nothing. -/
theorem generateAccessToken_cache_spec (baseUrl cid sec : String)
    (st : TokenState) (t1 t2 : Int) (r1 r2 : TokenResponse) :
    (cacheValid st t1 = true →
      generateAccessToken baseUrl cid sec st t1 r1 = (st.cachedToken.getD "", st, []))
    ∧ (cacheValid st t1 = false →
      generateAccessToken baseUrl cid sec st t1 r1 =
        (r1.access_token,
         { cachedToken := some r1.access_token
           tokenExpiry := some (t1 + r1.expires_in * 1000) },
         [oauthTokenRequest baseUrl cid sec]))
    ∧ ((oauthTokenRequest baseUrl cid sec).url = baseUrl ++ "/v1/oauth2/token"
        ∧ (oauthTokenRequest baseUrl cid sec).body = "grant_type=client_credentials")
    ∧ (cacheValid (generateAccessToken baseUrl cid sec st t1 r1).2.1 t2 = true →
        (generateAccessToken baseUrl cid sec
            (generateAccessToken baseUrl cid sec st t1 r1).2.1 t2 r2).2.2 = []
        ∧ (generateAccessToken baseUrl cid sec st t1 r1).2.2.length
            + (generateAccessToken baseUrl cid sec
                (generateAccessToken baseUrl cid sec st t1 r1).2.1 t2 r2).2.2.length ≤ 1)
    ∧ generateAccessTokenServices baseUrl cid sec r1
        = (r1.access_token, [oauthTokenRequest baseUrl cid sec]) := by
  refine ⟨fun h => ?_, fun h => ?_, ⟨rfl, rfl⟩, fun h => ?_, rfl⟩
  · simp [generateAccessToken, h]
  · simp [generateAccessToken, h]
  · by_cases h1 : cacheValid st t1 <;>
      simp [generateAccessToken, h1] at h ⊢ <;> simp [h]

/-- Witness for C1: a concrete valid-cache call (no request) and a concrete
cold-cache call (exactly one request, cache updated). -/
theorem generateAccessToken_cache_spec_witness :
    generateAccessToken "https://api-m.sandbox.paypal.com" "cid" "sec"
        { cachedToken := some "tokA", tokenExpiry := some 1000000 } 0
        { access_token := "tokB", expires_in := 3600 }
      = ("tokA", { cachedToken := some "tokA", tokenExpiry := some 1000000 }, [])
    ∧ generateAccessToken "https://api-m.sandbox.paypal.com" "cid" "sec"
        { cachedToken := none, tokenExpiry := none } 0
        { access_token := "tokB", expires_in := 3600 }
      = ("tokB", { cachedToken := some "tokB", tokenExpiry := some 3600000 },
         [oauthTokenRequest "https://api-m.sandbox.paypal.com" "cid" "sec"]) :=
  ⟨(generateAccessToken_cache_spec "https://api-m.sandbox.paypal.com" "cid" "sec"
      { cachedToken := some "tokA", tokenExpiry := some 1000000 } 0 0
      { access_token := "tokB", expires_in := 3600 }
      { access_token := "tokB", expires_in := 3600 }).1 (by decide),
   (generateAccessToken_cache_spec "https://api-m.sandbox.paypal.com" "cid" "sec"
      { cachedToken := none, tokenExpiry := none } 0 0
      { access_token := "tokB", expires_in := 3600 }
      { access_token := "tokB", expires_in := 3600 }).2.1 (by decide)⟩

/-- Counterexample for C1 as stated: the cited services/paypal.js variant of
the access-token operation keeps no cache, so two sequential calls — the
second arbitrarily soon after the first — perform one network exchange each,
two in total, contradicting the claimed cache write and the at-most-one
exchange bound for two calls inside the window. -/
theorem servicesToken_two_calls_two_exchanges :
    (generateAccessTokenServices "https://api-m.sandbox.paypal.com" "cid" "sec"
        { access_token := "tokA", expires_in := 3600 }).2.length
      + (generateAccessTokenServices "https://api-m.sandbox.paypal.com" "cid" "sec"
          { access_token := "tokA", expires_in := 3600 }).2.length = 2 := rfl

/-! ## Hosted-flow order creation (services/paypal.js, createOrder)

`createOrder(options = {})` destructures its options with defaults
`amount = '10.00'`, `currency = 'USD'`, `description = 'Payment'`, builds a
CAPTURE order and, on a 2xx response, extracts the href of the link with
rel "approve"; any thrown error (non-2xx, or the TypeError raised by
`.href` on a missing approve link) is converted to
`Error(error.response?.data?.message || 'Failed to create order')`. -/

structure ServiceOrderOptions where
  amount : Option String := none
  currency : Option String := none
  description : Option String := none
  userAction : Option String := none
  noShipping : Option Bool := none
  deriving DecidableEq, Repr

/-- The single purchase unit built by services/paypal.js createOrder
(lines 44-52): description plus an amount with currency code and value. -/
structure PurchaseUnitPayload where
  description : String
  amount_currency : String
  amount_value : String
  deriving DecidableEq, Repr

/-- services/paypal.js createOrder, the purchase unit of the submitted
payload, with the destructuring defaults applied. -/
def createOrderPayloadUnit (o : ServiceOrderOptions) : PurchaseUnitPayload :=
  { description := o.description.getD "Payment"
    amount_currency := o.currency.getD "USD"
    amount_value := o.amount.getD "10.00" }

/-- A link object of the provider order-creation response. -/
structure OrderLink where
  rel : String
  href : String
  deriving DecidableEq, Repr

/-- The fields of the provider order-creation response that the service
reads. -/
structure OrdersCreateResponse where
  id : String
  links : List OrderLink
  deriving DecidableEq, Repr

/-- Outcome of the POST /v2/checkout/orders exchange: a parsed 2xx body, or
an axios error whose `response?.data?.message` may be absent. -/
inductive CreateOrderOutcome where
  | ok (resp : OrdersCreateResponse)
  | httpError (message : Option String)
  deriving DecidableEq, Repr

/-- services/paypal.js line 76: `links.find(link => link.rel === 'approve')`. -/
def findApproveLink (links : List OrderLink) : Option OrderLink :=
  links.find? fun l => l.rel == "approve"

/-- The message of the error thrown by createOrder's catch block:
`error.response?.data?.message || 'Failed to create order'`. -/
def orderCreationErrorMessage (m : Option String) : String :=
  jsOr m "Failed to create order"

/-- services/paypal.js createOrder lines 62-85: on a 2xx response return the
order id and the approve link's href; a missing approve link makes
`find(...).href` throw, which the catch turns into the same
OrderCreationError as a non-2xx response. -/
def createOrderResult (outcome : CreateOrderOutcome) :
    Except String (String × String) :=
  match outcome with
  | .httpError m => .error (orderCreationErrorMessage m)
  | .ok resp =>
    match findApproveLink resp.links with
    | some l => .ok (resp.id, l.href)
    | none => .error "Failed to create order"

/-- What a part_002 createOrder call can end in: the normal return, which is
the approve link's href alone, or a propagated exception (that variant has
no try/catch: the axios error of a non-2xx response, and the TypeError of
`.href` on a missing approve link, both escape). -/
inductive Part002CreateResult where
  | href (s : String)
  | thrown
  deriving DecidableEq, Repr

/-- part_002 createOrder lines 88-91: `return approveLink.href` — the
provider-assigned order id is never part of the return value. -/
def createOrderResultPart002 (outcome : CreateOrderOutcome) : Part002CreateResult :=
  match outcome with
  | .httpError _ => .thrown
  | .ok resp =>
    match findApproveLink resp.links with
    | some l => .href l.href
    | none => .thrown

/-- Claim C6 (amended): on a 2xx provider response the services/paypal.js
hosted-flow createOrder returns the provider-assigned order id together with
the href of the link whose rel is "approve"; if no approve link is present,
or the provider responds non-2xx, it fails with an OrderCreationError
instead of returning a result.  The part_002 variant fails in the same two
cases but, on success, returns only the approve link's href, never the order
id. -/
theorem createOrderResult_spec (outcome : CreateOrderOutcome) :
    (∀ resp l, outcome = .ok resp → findApproveLink resp.links = some l →
        createOrderResult outcome = .ok (resp.id, l.href) ∧ l.rel = "approve")
    ∧ (∀ resp, outcome = .ok resp → findApproveLink resp.links = none →
        createOrderResult outcome = .error "Failed to create order")
    ∧ (∀ m, outcome = .httpError m →
        createOrderResult outcome = .error (orderCreationErrorMessage m))
    ∧ (∀ resp l, outcome = .ok resp → findApproveLink resp.links = some l →
        createOrderResultPart002 outcome = .href l.href)
    ∧ (∀ resp, outcome = .ok resp → findApproveLink resp.links = none →
        createOrderResultPart002 outcome = .thrown)
    ∧ (∀ m, outcome = .httpError m →
        createOrderResultPart002 outcome = .thrown) := by
  refine ⟨fun resp l ho hl => ?_, fun resp ho hl => ?_, fun m ho => ?_,
    fun resp l ho hl => ?_, fun resp ho hl => ?_, fun m ho => ?_⟩
  · subst ho
    refine ⟨by simp [createOrderResult, hl], ?_⟩
    have := List.find?_some hl
    simpa using this
  · subst ho
    simp [createOrderResult, hl]
  · subst ho
    rfl
  · subst ho
    simp [createOrderResultPart002, hl]
  · subst ho
    simp [createOrderResultPart002, hl]
  · subst ho
    rfl

/-- Witness for C6: a concrete response carrying an approve link yields the
id and that link's href (and, through part_002, the href alone); a concrete
response without one, and a concrete http error, both fail. -/
theorem createOrderResult_spec_witness :
    createOrderResult (.ok
      { id := "ORD-1"
        links := [{ rel := "self", href := "https://api/self" },
                  { rel := "approve", href := "https://paypal/approve/ORD-1" }] })
      = .ok ("ORD-1", "https://paypal/approve/ORD-1")
    ∧ createOrderResult (.ok { id := "ORD-2", links := [{ rel := "self", href := "u" }] })
      = .error "Failed to create order"
    ∧ createOrderResult (.httpError none) = .error "Failed to create order"
    ∧ createOrderResultPart002 (.ok
      { id := "ORD-1"
        links := [{ rel := "self", href := "https://api/self" },
                  { rel := "approve", href := "https://paypal/approve/ORD-1" }] })
      = .href "https://paypal/approve/ORD-1" :=
  ⟨((createOrderResult_spec (.ok
      { id := "ORD-1"
        links := [{ rel := "self", href := "https://api/self" },
                  { rel := "approve", href := "https://paypal/approve/ORD-1" }] })).1
      _ { rel := "approve", href := "https://paypal/approve/ORD-1" } rfl (by decide)).1,
   (createOrderResult_spec (.ok
      { id := "ORD-2", links := [{ rel := "self", href := "u" }] })).2.1 _ rfl (by decide),
   (createOrderResult_spec (.httpError none)).2.2.1 none rfl,
   (createOrderResult_spec (.ok
      { id := "ORD-1"
        links := [{ rel := "self", href := "https://api/self" },
                  { rel := "approve", href := "https://paypal/approve/ORD-1" }] })).2.2.2.1
      _ { rel := "approve", href := "https://paypal/approve/ORD-1" } rfl (by decide)⟩

/-- Counterexample for C6 as stated: the part_002 createOrder returns only
the approve link's href, never the provider-assigned order id — two
responses with different order ids but the same link collection produce
identical return values. -/
theorem part002_drops_order_id :
    createOrderResultPart002 (.ok
      { id := "ORD-A", links := [{ rel := "approve", href := "https://paypal/approve" }] })
      = createOrderResultPart002 (.ok
      { id := "ORD-B", links := [{ rel := "approve", href := "https://paypal/approve" }] })
    ∧ "ORD-A" ≠ "ORD-B" :=
  ⟨rfl, by decide⟩

/-! ## Direct card order creation (services/paypal.js, createCardOrder)

`createCardOrder(options = {})` destructures with the same defaults as
createOrder plus `cardDetails = {}`, splits MM/YY expiry on the slash, pads
the month to two digits with a leading zero and builds the card expiry as
`20${expYear}-${paddedMonth}`; absent card fields fall back to fixed billing
defaults via `||`. -/

structure CardDetails where
  number : Option String := none
  expiry : Option String := none
  cvc : Option String := none
  name : Option String := none
  address : Option String := none
  city : Option String := none
  state : Option String := none
  zip : Option String := none
  country : Option String := none
  deriving DecidableEq, Repr

structure CardOrderOptions where
  amount : Option String := none
  currency : Option String := none
  description : Option String := none
  cardDetails : Option CardDetails := none
  deriving DecidableEq, Repr

/-- Splitting a character list at every occurrence of a separator
character; the semantics of JS `String.prototype.split` with a one-character
separator (the empty input gives one empty field). -/
def jsSplitChar (c : Char) : List Char → List (List Char)
  | [] => [[]]
  | x :: xs =>
    match jsSplitChar c xs with
    | [] => [[]]
    | h :: t => if x = c then [] :: h :: t else (x :: h) :: t

/-- JS `s.split(c)` for a one-character separator. -/
def jsSplit (s : String) (c : Char) : List String :=
  (jsSplitChar c s.data).map String.mk

/-- services/paypal.js line 129:
`const [expMonth, expYear] = cardDetails.expiry ? cardDetails.expiry.split('/') : ['', '']`.
A falsy expiry yields two empty components; a missing destructured component
is the JS `undefined`, which a template literal renders as "undefined". -/
def expiryParts (e : Option String) : String × String :=
  match e with
  | none => ("", "")
  | some s =>
    if s = "" then ("", "")
    else ((jsSplit s '/').getD 0 "undefined", (jsSplit s '/').getD 1 "undefined")

/-- JS `String.prototype.padStart(2, '0')`. -/
def padStart2 (s : String) : String :=
  if s.length < 2 then String.mk (List.replicate (2 - s.length) '0') ++ s else s

/-- services/paypal.js line 158: the card expiry field
`20${expYear}-${paddedMonth}` sent in payment_source.card. -/
def cardExpiryPayload (cd : CardDetails) : String :=
  let mp := expiryParts cd.expiry
  "20" ++ mp.2 ++ "-" ++ padStart2 mp.1

/-- part_001 line 52: the card expiry field of the vault variant,
`20${expYear}-${expMonth}` — the month is interpolated without any
padding. -/
def cardExpiryPart001 (cd : CardDetails) : String :=
  let mp := expiryParts cd.expiry
  "20" ++ mp.2 ++ "-" ++ mp.1

/-- The payment_source.card object plus the purchase unit fields built by
createCardOrder (services/paypal.js lines 144-170). -/
structure CardPayload where
  description : String
  amount_currency : String
  amount_value : String
  card_number : Option String
  card_expiry : String
  security_code : Option String
  card_name : String
  address_line_1 : String
  admin_area_2 : String
  admin_area_1 : String
  postal_code : String
  country_code : String
  deriving DecidableEq, Repr

/-- services/paypal.js createCardOrder: the order payload it submits, with
destructuring defaults and the `||` fallbacks of the billing address. -/
def createCardOrderPayload (o : CardOrderOptions) : CardPayload :=
  let cd := o.cardDetails.getD {}
  { description := o.description.getD "Payment"
    amount_currency := o.currency.getD "USD"
    amount_value := o.amount.getD "10.00"
    card_number := cd.number
    card_expiry := cardExpiryPayload cd
    security_code := cd.cvc
    card_name := jsOr cd.name "Card Holder"
    address_line_1 := jsOr cd.address "123 Billing St"
    admin_area_2 := jsOr cd.city "City"
    admin_area_1 := jsOr cd.state "State"
    postal_code := jsOr cd.zip "12345"
    country_code := jsOr cd.country "US" }

/-- Claim C3 (amended): in services/paypal.js createCardOrder a card expiry
of the form MM/YY is normalized to YYYY-MM, the two-digit year expanded by
prefixing "20" and the month zero-padded to two digits; the part_001 vault
variant expands the year the same way but sends the month unpadded, so a
one-digit month stays one digit there. -/
theorem cardExpiry_normalized (o : CardOrderOptions) (cd : CardDetails)
    (e mm yy : String) (he : cd.expiry = some e)
    (hs : jsSplit e '/' = [mm, yy]) :
    (createCardOrderPayload { o with cardDetails := some cd }).card_expiry
      = "20" ++ yy ++ "-" ++ padStart2 mm
    ∧ cardExpiryPart001 cd = "20" ++ yy ++ "-" ++ mm := by
  have hne : e ≠ "" := by
    intro h0
    rw [h0] at hs
    have h1 : jsSplit "" '/' = [""] := rfl
    rw [h1] at hs
    simp at hs
  constructor
  · show cardExpiryPayload cd = _
    simp only [cardExpiryPayload, expiryParts, he]
    rw [if_neg hne]
    simp [hs]
  · simp only [cardExpiryPart001, expiryParts, he]
    rw [if_neg hne]
    simp [hs]

/-- Witness for C3: the spec examples through services/paypal.js — expiry
"07/25" normalizes to "2025-07" and "1/26" to "2026-01" — and "1/26"
through part_001, which produces the unpadded "2026-1". -/
theorem cardExpiry_normalized_witness :
    (createCardOrderPayload { cardDetails := some { expiry := some "07/25" } }).card_expiry
      = "2025-07"
    ∧ (createCardOrderPayload { cardDetails := some { expiry := some "1/26" } }).card_expiry
      = "2026-01"
    ∧ cardExpiryPart001 { expiry := some "1/26" } = "2026-1" :=
  ⟨((cardExpiry_normalized {} { expiry := some "07/25" } "07/25" "07" "25" rfl
      (by decide)).1).trans (by decide),
   ((cardExpiry_normalized {} { expiry := some "1/26" } "1/26" "1" "26" rfl
      (by decide)).1).trans (by decide),
   ((cardExpiry_normalized {} { expiry := some "1/26" } "1/26" "1" "26" rfl
      (by decide)).2).trans (by decide)⟩

/-- Counterexample for C3 as stated: the part_001 variant does not zero-pad
the month, so the claim's own example input "1/26" is sent as "2026-1"
there, not as the claimed "2026-01". -/
theorem part001_expiry_unpadded :
    cardExpiryPart001 { expiry := some "1/26" } = "2026-1"
    ∧ cardExpiryPart001 { expiry := some "1/26" } ≠ "2026-01" :=
  ⟨by decide, by decide⟩

/-! ## Fetch-based order creation (part_006, POST /create_order)

The handler builds
`{intent: req.body.intent.toUpperCase(), purchase_units: [{amount: {currency_code: 'USD', value: '100.00'}}]}`
so the amount is a constant independent of the request body. -/

/-- The request body fields the part_006 /create_order handler reads; any
amount the caller sends is never read. -/
structure Req006 where
  intent : String
  amount : Option String := none
  deriving DecidableEq, Repr

structure Payload006 where
  intent : String
  amount_currency : String
  amount_value : String
  deriving DecidableEq, Repr

/-- part_006 lines 26-34: the order payload of the fetch-based
/create_order handler. -/
def createOrder006 (r : Req006) : Payload006 :=
  { intent := r.intent.toUpper
    amount_currency := "USD"
    amount_value := "100.00" }

/-- Claim C10: with the amount absent (or an empty options object) neither
createOrder nor createCardOrder fails validation: the order is built for the
hard-coded default value "10.00", currency "USD", description "Payment"; and
the fetch-based create_order variant always sends the fixed value "100.00"
USD regardless of the request body. -/
theorem default_amount_spec (o : ServiceOrderOptions) (c : CardOrderOptions)
    (r : Req006) :
    (createOrderPayloadUnit { o with amount := none }).amount_value = "10.00"
    ∧ createOrderPayloadUnit {} =
        { description := "Payment", amount_currency := "USD", amount_value := "10.00" }
    ∧ (createCardOrderPayload { c with amount := none }).amount_value = "10.00"
    ∧ ((createCardOrderPayload {}).description = "Payment"
        ∧ (createCardOrderPayload {}).amount_currency = "USD"
        ∧ (createCardOrderPayload {}).amount_value = "10.00")
    ∧ ((createOrder006 r).amount_value = "100.00"
        ∧ (createOrder006 r).amount_currency = "USD") :=
  ⟨rfl, rfl, rfl, ⟨rfl, rfl, rfl⟩, ⟨rfl, rfl⟩⟩

/-! ## Advanced order creation (index.js, POST /api/paypal/create-order)

The handler validates the body (`validateOrderCreation`), then recomputes
the totals from the item list (index.js lines 230-231):
`itemTotal = items.reduce((sum, item) => sum + parseFloat(item.unit_amount.value) * parseInt(item.quantity), 0)`
and
`totalAmount = itemTotal + tax + handling + insurance - discount - shipping_discount`,
and sends `totalAmount.toFixed(2)` as the purchase-unit amount value.
Decimal quantities are modelled as rationals (the already-parsed value of
`parseFloat`). -/

/-- An entry of the order's item list: the parsed `unit_amount.value` and
the parsed integer `quantity`. -/
structure OrderItem where
  unit_amount_value : ℚ
  quantity : ℕ
  deriving DecidableEq, Repr

/-- The fields of the create-order request body that the totals computation
and validation read (index.js lines 206-225), with the handler's defaults
for the numeric options. -/
structure CreateOrderData where
  amount : ℚ
  currency : Option String := none
  items : List OrderItem := []
  discount : ℚ := 0
  tax : ℚ := 0
  handling : ℚ := 0
  insurance : ℚ := 0
  shipping_discount : ℚ := 0
  deriving DecidableEq, Repr

/-- index.js line 153: the currency whitelist of validateOrderCreation. -/
def supportedCurrencies : List String := ["USD", "EUR", "GBP", "CAD", "AUD", "JPY"]

/-- index.js lines 146-162, validateOrderCreation: the amount must be a
truthy positive number, and a truthy currency must be in the whitelist. -/
def validateOrderCreation (d : CreateOrderData) : Bool :=
  decide (0 < d.amount) &&
    (match d.currency with
     | none => true
     | some c => if c = "" then true else supportedCurrencies.contains c)

/-- The signed number of cents that JS `toFixed(2)` rounds a decimal value
to (half away from zero on exact ties); coercing the resulting string back
to a number, as a JS comparison does, reads off this value divided by
100. -/
def cents (q : ℚ) : Int :=
  if q < 0 then -⌊-q * 100 + 1 / 2⌋ else ⌊q * 100 + 1 / 2⌋

/-- JS `Number.prototype.toFixed(2)`: round to a whole number of cents and
print with two decimal places. -/
def toFixed2 (q : ℚ) : String :=
  let a : ℕ := (cents q).natAbs
  (if cents q < 0 then "-" else "") ++ toString (a / 100) ++ "." ++
    (if a % 100 < 10 then "0" ++ toString (a % 100) else toString (a % 100))

/-- index.js line 230: the reduce over the item list. -/
def itemTotal (items : List OrderItem) : ℚ :=
  items.foldl (fun sum i => sum + i.unit_amount_value * i.quantity) 0

/-- index.js line 231: the recomputed order total. -/
def totalAmount (d : CreateOrderData) : ℚ :=
  itemTotal d.items + d.tax + d.handling + d.insurance
    - d.discount - d.shipping_discount

/-- index.js line 242: the amount value string sent in the purchase unit,
`totalAmount.toFixed(2)`. -/
def purchaseUnitValue (d : CreateOrderData) : String :=
  toFixed2 (totalAmount d)

/-- part_002 lines 41-44: the item total of that variant, a string produced
by `reduce(...).toFixed(2)`. -/
def itemTotalStr002 (items : List OrderItem) : String :=
  toFixed2 (itemTotal items)

/-- part_002 line 47: `const finalAmount = itemTotal > 0 ? itemTotal : amount`.
The comparison coerces the toFixed(2) string back to a number, so the test
is on the rounded total; when it fails, the caller-supplied (or defaulted)
amount string becomes the purchase-unit value instead. -/
def finalAmount002 (amount : String) (items : List OrderItem) : String :=
  if 0 < cents (itemTotal items) then itemTotalStr002 items else amount

theorem itemTotal_eq_sum (items : List OrderItem) :
    itemTotal items
      = (items.map fun i => i.unit_amount_value * (i.quantity : ℚ)).sum := by
  suffices h : ∀ (l : List OrderItem) (s : ℚ),
      List.foldl (fun (sum : ℚ) i => sum + i.unit_amount_value * (i.quantity : ℚ)) s l
        = s + (l.map fun i => i.unit_amount_value * (i.quantity : ℚ)).sum by
    simpa [itemTotal] using h items 0
  intro l
  induction l with
  | nil => intro s; simp
  | cons x xs ih =>
    intro s
    simp only [List.foldl_cons, List.map_cons, List.sum_cons, ih]
    ring

/-- Claim C2 (amended): in the index.js handler, when an item list is
supplied the purchase-unit amount is recomputed from the items, equal to the
sum over items of unit_amount.value times quantity, plus tax, handling and
insurance, minus discount and shipping_discount, rounded to two decimal
places; the caller-supplied amount does not influence the value sent there
(no consistency check is performed against it), and the spec example of two
items with tax 0.45 produces the string "6.45".  In the part_002 variant the
recomputed item total is sent only while its rounded value is positive: the
sent value is then likewise independent of the caller's amount, but when the
supplied items total 0.00 the caller's amount is sent verbatim instead. -/
theorem purchaseUnitValue_recomputed (d : CreateOrderData) (a1 a2 : ℚ)
    (its : List OrderItem) (a3 a4 : String) :
    purchaseUnitValue d
      = toFixed2 ((d.items.map fun i => i.unit_amount_value * (i.quantity : ℚ)).sum
          + d.tax + d.handling + d.insurance - d.discount - d.shipping_discount)
    ∧ purchaseUnitValue { d with amount := a1 }
        = purchaseUnitValue { d with amount := a2 }
    ∧ purchaseUnitValue
        { amount := 6.45
          items := [{ unit_amount_value := 1.5, quantity := 2 },
                    { unit_amount_value := 3, quantity := 1 }]
          tax := 0.45 } = "6.45"
    ∧ (0 < cents (itemTotal its) →
        finalAmount002 a3 its = finalAmount002 a4 its)
    ∧ (¬ 0 < cents (itemTotal its) → finalAmount002 a3 its = a3) := by
  refine ⟨?_, rfl, ?_, fun hpos => ?_, fun hneg => ?_⟩
  · simp [purchaseUnitValue, totalAmount, itemTotal_eq_sum]
  · norm_num [purchaseUnitValue, totalAmount, itemTotal, toFixed2, cents]
    decide
  · simp [finalAmount002, hpos]
  · simp [finalAmount002, hneg]

/-- Witness for C2 (amended): with a concrete positive item total the
part_002 value is the same for caller amounts "50.00" and "99.99"; with a
concrete zero item total the caller amount "50.00" is sent. -/
theorem purchaseUnitValue_recomputed_witness :
    finalAmount002 "50.00" [{ unit_amount_value := 1.5, quantity := 2 }]
      = finalAmount002 "99.99" [{ unit_amount_value := 1.5, quantity := 2 }]
    ∧ finalAmount002 "50.00" [{ unit_amount_value := 0, quantity := 1 }] = "50.00" :=
  ⟨(purchaseUnitValue_recomputed { amount := 0 } 0 0
      [{ unit_amount_value := 1.5, quantity := 2 }] "50.00" "99.99").2.2.2.1
      (by norm_num [cents, itemTotal]),
   (purchaseUnitValue_recomputed { amount := 0 } 0 0
      [{ unit_amount_value := 0, quantity := 1 }] "50.00" "99.99").2.2.2.2
      (by norm_num [cents, itemTotal])⟩

/-- Counterexample for C2: in index.js, a request whose caller-supplied
amount is 50.00 but whose items total 3.00 passes validation and the handler
sends "3.00", inconsistent with the caller's amount, without any error; and
in part_002, a supplied item list totalling "0.00" makes the handler send
the caller's amount rather than the recomputed item total. -/
theorem purchaseUnitValue_ignores_caller_amount :
    validateOrderCreation
        { amount := 50, items := [{ unit_amount_value := 1.5, quantity := 2 }] } = true
    ∧ purchaseUnitValue
        { amount := 50, items := [{ unit_amount_value := 1.5, quantity := 2 }] } = "3.00"
    ∧ toFixed2 (50 : ℚ) = "50.00"
    ∧ purchaseUnitValue
        { amount := 50, items := [{ unit_amount_value := 1.5, quantity := 2 }] }
      ≠ toFixed2 (50 : ℚ)
    ∧ itemTotalStr002 [{ unit_amount_value := 0, quantity := 2 }] = "0.00"
    ∧ finalAmount002 "50.00" [{ unit_amount_value := 0, quantity := 2 }] = "50.00" := by
  have h1 : purchaseUnitValue
      { amount := 50, items := [{ unit_amount_value := 1.5, quantity := 2 }] } = "3.00" := by
    norm_num [purchaseUnitValue, totalAmount, itemTotal, toFixed2, cents]
    decide
  have h2 : toFixed2 (50 : ℚ) = "50.00" := by
    norm_num [toFixed2, cents]
    decide
  have h3 : itemTotalStr002 [{ unit_amount_value := 0, quantity := 2 }] = "0.00" := by
    norm_num [itemTotalStr002, itemTotal, toFixed2, cents]
    decide
  have h4 : finalAmount002 "50.00" [{ unit_amount_value := 0, quantity := 2 }] = "50.00" := by
    norm_num [finalAmount002, itemTotal, cents]
  refine ⟨by decide, h1, h2, ?_, h3, h4⟩
  rw [h1, h2]
  decide

/-! ## Order capture

Two route handlers are modelled: index.js POST /api/paypal/capture-order/:orderID
(lines 379-477), which first requires the order id to be present in the
in-memory `orders` map populated by its create-order route, returning 404
otherwise, and returns HTTP 400 when a 2xx provider response has a
non-COMPLETED status; and server.js POST /api/paypal/capture-order
(lines 105-164), which returns HTTP 200 with success:false for a
non-COMPLETED status.  services/paypal.js capturePayment (lines 91-111)
POSTs the capture for whatever order id it is given.  Each handler returns
its HTTP reply together with a Boolean recording whether the provider
capture call was performed. -/

/-- A capture record of the provider response
(`purchase_units[..].payments.captures[..]`). -/
structure CaptureRecord where
  id : String
  amount_value : String
  deriving DecidableEq, Repr

structure CapturePayments where
  captures : List CaptureRecord
  deriving DecidableEq, Repr

/-- A purchase unit of the capture response; `payments` may be absent. -/
structure CapturePurchaseUnit where
  payments : Option CapturePayments
  deriving DecidableEq, Repr

/-- The fields of the provider capture response body that the handlers
read. -/
structure CaptureBody where
  id : String
  status : String
  purchase_units : List CapturePurchaseUnit
  deriving DecidableEq, Repr

/-- Outcome of the provider capture exchange: a parsed 2xx body, or a 4xx/5xx
error status (axios throws in that case). -/
inductive CaptureOutcome where
  | ok (body : CaptureBody)
  | httpError (status : ℕ)
  deriving DecidableEq, Repr

/-- index.js line 420: `purchase_units[0]?.payments?.captures[0]` with
optional chaining, so every missing step yields undefined. -/
def firstCapture (b : CaptureBody) : Option CaptureRecord :=
  match b.purchase_units.head? with
  | none => none
  | some pu =>
    match pu.payments with
    | none => none
    | some p => p.captures.head?

/-- An HTTP reply of a capture/refund/get route, reduced to the fields the
claims are about. -/
structure HttpReply where
  status : ℕ
  success : Option Bool := none
  transactionId : Option String := none
  bodyStatus : Option String := none
  errorMsg : Option String := none
  deriving DecidableEq, Repr

/-- index.js POST /api/paypal/capture-order/:orderID: reject an empty order
id with 400; reject an id absent from the in-memory orders map with 404
before any provider call; on a provider error reply 500; on a 2xx provider
body reply 200 with the first capture's id when status is COMPLETED and 400
otherwise.  The Boolean of the pair records whether the provider was
called. -/
def captureOrderRouteIndex (orderID : String) (stored : Bool)
    (provider : CaptureOutcome) : HttpReply × Bool :=
  if orderID = "" then
    ({ status := 400, errorMsg := some "Order ID is required" }, false)
  else if !stored then
    ({ status := 404, errorMsg := some "Order not found" }, false)
  else
    match provider with
    | .httpError _ =>
      ({ status := 500, errorMsg := some "Failed to capture PayPal payment" }, true)
    | .ok b =>
      if b.status = "COMPLETED" then
        ({ status := 200, success := some true
           transactionId := (firstCapture b).map (fun c => c.id)
           bodyStatus := some b.status }, true)
      else
        ({ status := 400, success := some false
           errorMsg := some "Payment not completed"
           bodyStatus := some b.status }, true)

/-- server.js POST /api/paypal/capture-order: reject a falsy orderID with
400; on a provider error reply 500 with success:false; on a 2xx body with
status COMPLETED extract `purchase_units[0].payments.captures[0]` without
optional chaining (a missing capture raises a TypeError that the catch turns
into the 500 reply); any other status yields HTTP 200 with
success:false. -/
def captureOrderRouteServer (orderID : Option String)
    (provider : CaptureOutcome) : HttpReply × Bool :=
  if !truthyStr orderID then
    ({ status := 400, errorMsg := some "Order ID is required" }, false)
  else
    match provider with
    | .httpError _ =>
      ({ status := 500, success := some false
         errorMsg := some "Failed to capture payment" }, true)
    | .ok b =>
      if b.status = "COMPLETED" then
        match firstCapture b with
        | some c => ({ status := 200, success := some true
                       transactionId := some c.id }, true)
        | none => ({ status := 500, success := some false
                     errorMsg := some "Failed to capture payment" }, true)
      else
        ({ status := 200, success := some false
           errorMsg := some "Payment not completed"
           bodyStatus := some b.status }, true)

/-- The request services/paypal.js capturePayment (lines 96-104) issues for
a given order id: it is built unconditionally, for any caller-supplied
id. -/
structure ApiRequest where
  method : String
  url : String
  deriving DecidableEq, Repr

def capturePaymentRequest (baseUrl orderID : String) : ApiRequest :=
  { method := "POST"
    url := baseUrl ++ "/v2/checkout/orders/" ++ orderID ++ "/capture" }

/-- Claim C5 (amended): in the server.js capture route a 2xx provider
response with status COMPLETED yields HTTP 200 extracting the first capture
of the first purchase unit, and any other status yields HTTP 200 with
success:false, a successful non-completed result rather than an error; a
provider 4xx/5xx is the only provider outcome that produces the 500
CaptureError reply, and no provider error ever yields success.  The index.js
capture route, by contrast, turns a 2xx non-COMPLETED response into an HTTP
400 error reply, and likewise never reports success on a provider error. -/
theorem captureOrder_status_spec (orderID : String) (oid : Option String)
    (b : CaptureBody) (e : ℕ) :
    (truthyStr oid = true → b.status ≠ "COMPLETED" →
      (captureOrderRouteServer oid (.ok b)).1
        = { status := 200, success := some false
            errorMsg := some "Payment not completed"
            bodyStatus := some b.status })
    ∧ (∀ c, truthyStr oid = true → b.status = "COMPLETED" → firstCapture b = some c →
      (captureOrderRouteServer oid (.ok b)).1
        = { status := 200, success := some true, transactionId := some c.id })
    ∧ (truthyStr oid = true →
      (captureOrderRouteServer oid (.httpError e)).1.status = 500
        ∧ (captureOrderRouteServer oid (.httpError e)).1.success ≠ some true)
    ∧ (orderID ≠ "" → b.status ≠ "COMPLETED" →
      (captureOrderRouteIndex orderID true (.ok b)).1.status = 400)
    ∧ (orderID ≠ "" →
      (captureOrderRouteIndex orderID true (.httpError e)).1.success ≠ some true) := by
  refine ⟨fun ho hb => ?_, fun c ho hb hc => ?_, fun ho => ?_, fun ho hb => ?_, fun ho => ?_⟩
  · simp [captureOrderRouteServer, ho, hb]
  · simp [captureOrderRouteServer, ho, hb, hc]
  · simp [captureOrderRouteServer, ho]
  · simp [captureOrderRouteIndex, ho, hb]
  · simp [captureOrderRouteIndex, ho]

/-- Witness for C5: concrete COMPLETED, non-COMPLETED and provider-error
captures through both routes. -/
theorem captureOrder_status_spec_witness :
    (captureOrderRouteServer (some "O1")
        (.ok { id := "O1", status := "PENDING", purchase_units := [] })).1
      = { status := 200, success := some false
          errorMsg := some "Payment not completed", bodyStatus := some "PENDING" }
    ∧ (captureOrderRouteServer (some "O1")
        (.ok { id := "O1", status := "COMPLETED"
               purchase_units := [{ payments := some { captures := [{ id := "CAP1", amount_value := "10.00" }] } }] })).1
      = { status := 200, success := some true, transactionId := some "CAP1" }
    ∧ (captureOrderRouteServer (some "O1") (.httpError 404)).1.status = 500
    ∧ (captureOrderRouteIndex "O1" true
        (.ok { id := "O1", status := "PENDING", purchase_units := [] })).1.status = 400 :=
  ⟨(captureOrder_status_spec "O1" (some "O1")
      { id := "O1", status := "PENDING", purchase_units := [] } 404).1
      (by decide) (by decide),
   (captureOrder_status_spec "O1" (some "O1")
      { id := "O1", status := "COMPLETED"
        purchase_units := [{ payments := some { captures := [{ id := "CAP1", amount_value := "10.00" }] } }] } 404).2.1
      { id := "CAP1", amount_value := "10.00" } (by decide) rfl rfl,
   ((captureOrder_status_spec "O1" (some "O1")
      { id := "O1", status := "PENDING", purchase_units := [] } 404).2.2.1
      (by decide)).1,
   (captureOrder_status_spec "O1" (some "O1")
      { id := "O1", status := "PENDING", purchase_units := [] } 404).2.2.2.1
      (by decide) (by decide)⟩

/-- Counterexample for C5 as stated: a 2xx provider response whose status is
PENDING makes the index.js capture route reply with HTTP 400 and
success:false, an error reply rather than a successful non-completed
result. -/
theorem captureOrder_pending_is_error_in_index :
    (captureOrderRouteIndex "ORDER-1" true
        (.ok { id := "ORDER-1", status := "PENDING", purchase_units := [] })).1
      = { status := 400, success := some false
          errorMsg := some "Payment not completed"
          bodyStatus := some "PENDING" } := by
  decide

/-- Claim C9 (amended): services/paypal.js capturePayment builds the capture
POST for any caller-supplied order id, with no internal record of created
orders; the index.js capture route, however, rejects with 404, before any
provider call, every order id that is not in the in-memory map its
create-order route populates, and calls the provider exactly when the id is
stored. -/
theorem captureOrder_sequencing_spec (baseUrl orderID : String)
    (provider : CaptureOutcome) :
    capturePaymentRequest baseUrl orderID
      = { method := "POST"
          url := baseUrl ++ "/v2/checkout/orders/" ++ orderID ++ "/capture" }
    ∧ (orderID ≠ "" →
        captureOrderRouteIndex orderID false provider
          = ({ status := 404, errorMsg := some "Order not found" }, false))
    ∧ (orderID ≠ "" →
        (captureOrderRouteIndex orderID true provider).2 = true) := by
  refine ⟨rfl, fun ho => ?_, fun ho => ?_⟩
  · simp [captureOrderRouteIndex, ho]
  · cases provider with
    | httpError e => simp [captureOrderRouteIndex, ho]
    | ok b =>
      by_cases hb : b.status = "COMPLETED" <;>
        simp [captureOrderRouteIndex, ho, hb]

/-- Witness for C9: a concrete unknown order id is answered 404 with no
provider call, while a stored one reaches the provider. -/
theorem captureOrder_sequencing_spec_witness :
    captureOrderRouteIndex "ORDER-XYZ" false
        (.ok { id := "ORDER-XYZ", status := "COMPLETED", purchase_units := [] })
      = ({ status := 404, errorMsg := some "Order not found" }, false)
    ∧ (captureOrderRouteIndex "ORDER-XYZ" true
        (.ok { id := "ORDER-XYZ", status := "COMPLETED", purchase_units := [] })).2 = true :=
  ⟨(captureOrder_sequencing_spec "https://api-m.sandbox.paypal.com" "ORDER-XYZ"
      (.ok { id := "ORDER-XYZ", status := "COMPLETED", purchase_units := [] })).2.1
      (by decide),
   (captureOrder_sequencing_spec "https://api-m.sandbox.paypal.com" "ORDER-XYZ"
      (.ok { id := "ORDER-XYZ", status := "COMPLETED", purchase_units := [] })).2.2
      (by decide)⟩

/-- Counterexample for C9 as stated: the index.js capture route, given an
order id absent from its in-memory store, replies 404 without performing any
provider capture call, so the operation does internally require a prior
createOrder through this process. -/
theorem captureOrder_rejects_unknown_id :
    captureOrderRouteIndex "ORDER-XYZ" false
        (.ok { id := "ORDER-XYZ", status := "COMPLETED", purchase_units := [] })
      = ({ status := 404, errorMsg := some "Order not found" }, false) := by
  decide

/-! ## Refund (index.js, POST /api/paypal/refund/:captureID)

The handler builds
`{...(amount && {amount: {currency_code: currency || 'USD', value: amount.toString()}}), ...(note_to_payer && {note_to_payer}), ...(invoice_id && {invoice_id})}`
and POSTs it to `/v2/payments/captures/{captureID}/refund`: the amount
object is spread into the body exactly when the request's `amount` field is
truthy. -/

/-- A JSON value of the request body as the handler sees it: a number or a
string. -/
inductive JsValue where
  | num (q : ℚ)
  | str (s : String)
  deriving DecidableEq, Repr

/-- JS truthiness of such a value: 0 and the empty string are falsy. -/
def JsValue.truthy : JsValue → Bool
  | .num q => decide (q ≠ 0)
  | .str s => s != ""

/-- JS `x.toString()` for such a value, for the money values this endpoint
receives (at most two decimal places): a string is itself; a number prints
its integer part and only the decimal digits it needs. -/
def JsValue.toStr : JsValue → String
  | .str s => s
  | .num q =>
    let c : Int := if q < 0 then -⌊-q * 100⌋ else ⌊q * 100⌋
    let a : ℕ := c.natAbs
    (if c < 0 then "-" else "") ++ toString (a / 100) ++
      (if a % 100 = 0 then ""
       else if a % 100 % 10 = 0 then "." ++ toString (a % 100 / 10)
       else "." ++ (if a % 100 < 10 then "0" ++ toString (a % 100) else toString (a % 100)))

/-- The amount object of the refund body. -/
structure RefundAmount where
  currency_code : String
  value : String
  deriving DecidableEq, Repr

/-- The refund request body built by the handler (index.js lines 528-537). -/
structure RefundBody where
  amount : Option RefundAmount := none
  note_to_payer : Option String := none
  invoice_id : Option String := none
  deriving DecidableEq, Repr

/-- index.js lines 528-537: the conditional spreads of the refund body. -/
def buildRefundBody (amount : Option JsValue) (currency : Option String)
    (noteToPayer invoiceId : Option String) : RefundBody :=
  { amount :=
      match amount with
      | none => none
      | some v =>
        if v.truthy then
          some { currency_code := jsOr currency "USD", value := v.toStr }
        else none
    note_to_payer := if truthyStr noteToPayer then noteToPayer else none
    invoice_id := if truthyStr invoiceId then invoiceId else none }

/-- index.js line 541: the refund endpoint URL. -/
def refundRequestUrl (baseUrl captureID : String) : String :=
  baseUrl ++ "/v2/payments/captures/" ++ captureID ++ "/refund"

/-- Claim C7 (amended): the body POSTed to
baseUrl/v2/payments/captures/captureId/refund contains an amount object
exactly when the caller supplied a truthy amount (a nonzero number or
non-empty string), in which case its value is the supplied amount's string
form and its currency the supplied currency or "USD"; an absent amount, and
equally a falsy one such as the number 0, produce a body without the amount
object, which the provider treats as a full refund. -/
theorem refundBody_amount_spec (v : JsValue) (currency : Option String)
    (n i : Option String) (baseUrl captureID : String) :
    refundRequestUrl baseUrl captureID
      = baseUrl ++ "/v2/payments/captures/" ++ captureID ++ "/refund"
    ∧ (buildRefundBody none currency n i).amount = none
    ∧ (v.truthy = true →
        (buildRefundBody (some v) currency n i).amount
          = some { currency_code := jsOr currency "USD", value := v.toStr })
    ∧ (v.truthy = false →
        (buildRefundBody (some v) currency n i).amount = none) := by
  refine ⟨rfl, rfl, fun hv => ?_, fun hv => ?_⟩
  · simp [buildRefundBody, hv]
  · simp [buildRefundBody, hv]

/-- Witness for C7: a concrete partial refund of "25.50" keeps the amount
object with the caller's value; a concrete request without an amount omits
it. -/
theorem refundBody_amount_spec_witness :
    (buildRefundBody (some (.str "25.50")) (some "EUR") none none).amount
      = some { currency_code := "EUR", value := "25.50" }
    ∧ (buildRefundBody none (some "EUR") none none).amount = none :=
  ⟨(refundBody_amount_spec (.str "25.50") (some "EUR") none none "b" "c").2.2.1
      (by decide),
   (refundBody_amount_spec (.str "25.50") (some "EUR") none none "b" "c").2.1⟩

/-- Counterexample for C7 as stated: the caller supplies the amount 0, yet
the built body omits the amount object, turning the request into a full
refund although an amount was supplied. -/
theorem refund_zero_amount_omitted :
    (buildRefundBody (some (.num 0)) (some "USD") none none).amount = none
    ∧ (JsValue.num 0).truthy = false := by
  exact ⟨by decide, by decide⟩

/-! ## Order read-back (GET order routes)

server.js GET /api/paypal/order/:orderID relays `response.data` unchanged;
index.js GET /api/paypal/order/:orderID builds
`{...response.data, ...(storedOrder && {stored_data: storedOrder})}`,
adding a stored_data field whenever its in-memory map holds the id.  The
provider representation is modelled as an association list of fields. -/

/-- The JS object spread `{...a, ...b}` on association lists: keys of `a`
keep their position, values overridden by `b`; keys only in `b` are
appended. -/
def jsSpread (a b : List (String × String)) : List (String × String) :=
  (a.map fun p =>
    match b.lookup p.1 with
    | some v => (p.1, v)
    | none => p)
  ++ b.filter fun p => (a.lookup p.1).isNone

/-- server.js lines 167-190: the reply body of the get-order route is the
provider representation itself. -/
def getOrderRouteServer (data : List (String × String)) : List (String × String) :=
  data

/-- index.js lines 563-593: the reply body of the get-order route, merging
in `stored_data` when the in-memory map has an entry for the id. -/
def getOrderRouteIndex (data : List (String × String)) (stored : Option String) :
    List (String × String) :=
  match stored with
  | none => data
  | some s => jsSpread data [("stored_data", s)]

theorem lookup_none_of_no_key (k : String) (data : List (String × String))
    (hk : ∀ p ∈ data, p.1 ≠ k) : data.lookup k = none := by
  induction data with
  | nil => rfl
  | cons x xs ih =>
    have hx : x.1 ≠ k := hk x (by simp)
    have hxs : ∀ p ∈ xs, p.1 ≠ k := fun p hp => hk p (by simp [hp])
    have hb : (k == x.1) = false := beq_eq_false_iff_ne.mpr (Ne.symm hx)
    simp [List.lookup, ih hxs, hb]

theorem jsSpread_no_clash (data : List (String × String)) (k v : String)
    (hk : ∀ p ∈ data, p.1 ≠ k) :
    jsSpread data [(k, v)] = data ++ [(k, v)] := by
  unfold jsSpread
  have hmap : (data.map fun p =>
      match List.lookup p.1 [(k, v)] with
      | some w => (p.1, w)
      | none => p) = data := by
    induction data with
    | nil => rfl
    | cons x xs ih =>
      have hx : x.1 ≠ k := hk x (by simp)
      have hxs : ∀ p ∈ xs, p.1 ≠ k := fun p hp => hk p (by simp [hp])
      have hb : (x.1 == k) = false := beq_eq_false_iff_ne.mpr hx
      have hhead : (match List.lookup x.1 [(k, v)] with
          | some w => (x.1, w)
          | none => x) = x := by
        simp [List.lookup, hb]
      simp only [List.map_cons, hhead, ih hxs]
  have hfil : List.filter (fun p => (data.lookup p.1).isNone) [(k, v)] = [(k, v)] := by
    simp [List.filter, lookup_none_of_no_key k data hk]
  rw [hmap, hfil]

/-- Claim C8 (amended): the server.js get-order route returns the provider
representation unmodified, and so does the index.js route when no stored
order exists for the id; but when the in-memory map holds the id, the
index.js route adds a stored_data field to the provider representation
(preserving the provider fields). -/
theorem getOrder_passthrough_spec (data : List (String × String)) (s : String) :
    getOrderRouteServer data = data
    ∧ getOrderRouteIndex data none = data
    ∧ ((∀ p ∈ data, p.1 ≠ "stored_data") →
        getOrderRouteIndex data (some s) = data ++ [("stored_data", s)]) := by
  refine ⟨rfl, rfl, fun hk => ?_⟩
  exact jsSpread_no_clash data "stored_data" s hk

/-- Witness for C8: a concrete provider body passes through the server
route, and gains exactly a stored_data field through the index route. -/
theorem getOrder_passthrough_spec_witness :
    getOrderRouteServer [("id", "ORD-1"), ("status", "CREATED")]
      = [("id", "ORD-1"), ("status", "CREATED")]
    ∧ getOrderRouteIndex [("id", "ORD-1"), ("status", "CREATED")] (some "S")
      = [("id", "ORD-1"), ("status", "CREATED"), ("stored_data", "S")] :=
  ⟨(getOrder_passthrough_spec [("id", "ORD-1"), ("status", "CREATED")] "S").1,
   (getOrder_passthrough_spec [("id", "ORD-1"), ("status", "CREATED")] "S").2.2
      (by decide)⟩

/-- Counterexample for C8 as stated: for an order id held in the in-memory
map, the index.js get-order route does not return the provider
representation unmodified: it adds a stored_data field. -/
theorem getOrder_adds_stored_data :
    getOrderRouteIndex [("id", "ORD-1")] (some "S")
      = [("id", "ORD-1"), ("stored_data", "S")]
    ∧ getOrderRouteIndex [("id", "ORD-1")] (some "S") ≠ [("id", "ORD-1")] := by
  exact ⟨by decide, by decide⟩

/-! ## Idempotency keys (PayPal-Request-Id)

services/paypal.js line 69 builds the order-creation idempotency key as
`order-${Date.now()}-${Math.floor(Math.random() * 1000)}`; the part_003
variant (line 124) builds `order-${Date.now()}` from the clock alone.  The
decimal rendering performed by the template literal is modelled
explicitly so that key equality can be related to the clock and random
entropy inputs. -/

/-- The decimal digit characters of a natural number, most significant
first: the rendering of a nonnegative integer by a JS template literal. -/
def natChars (n : ℕ) : List Char :=
  if n = 0 then ['0'] else ((Nat.digits 10 n).map Nat.digitChar).reverse

/-- Decimal rendering of a natural number as a string. -/
def natStr (n : ℕ) : String := String.mk (natChars n)

/-- services/paypal.js line 69: the PayPal-Request-Id sent by createOrder,
as a function of the millisecond clock and the scaled Math.random draw. -/
def requestIdServices (now rnd : ℕ) : String :=
  "order-" ++ natStr now ++ "-" ++ natStr rnd

/-- part_003 line 124: the PayPal-Request-Id of the variant that uses the
clock alone. -/
def requestIdPart003 (now : ℕ) : String :=
  "order-" ++ natStr now

theorem digitChar_inj_lt10 : ∀ a, a < 10 → ∀ b, b < 10 →
    Nat.digitChar a = Nat.digitChar b → a = b := by decide

theorem digitChar_ne_dash : ∀ a, a < 10 → Nat.digitChar a ≠ '-' := by decide

theorem map_digitChar_inj : ∀ l1 l2 : List ℕ,
    (∀ x ∈ l1, x < 10) → (∀ x ∈ l2, x < 10) →
    l1.map Nat.digitChar = l2.map Nat.digitChar → l1 = l2 := by
  intro l1
  induction l1 with
  | nil =>
    intro l2 _ _ h
    cases l2 with
    | nil => rfl
    | cons b bs => simp at h
  | cons a as ih =>
    intro l2 h1 h2 h
    cases l2 with
    | nil => simp at h
    | cons b bs =>
      simp only [List.map_cons, List.cons.injEq] at h
      have ha : a < 10 := h1 a (by simp)
      have hb : b < 10 := h2 b (by simp)
      have hab : a = b := digitChar_inj_lt10 a ha b hb h.1
      have ht : as = bs :=
        ih bs (fun x hx => h1 x (by simp [hx])) (fun x hx => h2 x (by simp [hx])) h.2
      simp [hab, ht]

theorem eq_zero_of_natChars_eq_zeroChar (n : ℕ) (h : natChars n = ['0']) :
    n = 0 := by
  by_cases hn : n = 0
  · exact hn
  · exfalso
    unfold natChars at h
    rw [if_neg hn] at h
    have h2 : (Nat.digits 10 n).map Nat.digitChar = ['0'] := by
      have := congrArg List.reverse h
      simpa using this
    have h3 : Nat.digits 10 n = [0] := by
      have h0 : ([0] : List ℕ).map Nat.digitChar = ['0'] := by decide
      exact map_digitChar_inj _ _
        (fun x hx => Nat.digits_lt_base (by norm_num) hx)
        (fun x hx => by simp at hx; simp [hx]) (h2.trans h0.symm)
    have h4 := Nat.ofDigits_digits 10 n
    rw [h3] at h4
    simp [Nat.ofDigits] at h4
    exact hn h4.symm

theorem natChars_inj (m n : ℕ) (h : natChars m = natChars n) : m = n := by
  by_cases hm : m = 0
  · subst hm
    have h0 : natChars 0 = ['0'] := rfl
    exact (eq_zero_of_natChars_eq_zeroChar n (h.symm.trans h0)).symm
  · by_cases hn : n = 0
    · subst hn
      have h0 : natChars 0 = ['0'] := rfl
      exact absurd (eq_zero_of_natChars_eq_zeroChar m (h.trans h0)) hm
    · unfold natChars at h
      rw [if_neg hm, if_neg hn] at h
      have hmap := List.reverse_injective h
      have hdig := map_digitChar_inj _ _
        (fun x hx => Nat.digits_lt_base (by norm_num) hx)
        (fun x hx => Nat.digits_lt_base (by norm_num) hx) hmap
      calc m = Nat.ofDigits 10 (Nat.digits 10 m) := (Nat.ofDigits_digits 10 m).symm
        _ = Nat.ofDigits 10 (Nat.digits 10 n) := by rw [hdig]
        _ = n := Nat.ofDigits_digits 10 n

theorem dash_not_mem_natChars (n : ℕ) : '-' ∉ natChars n := by
  unfold natChars
  by_cases hn : n = 0
  · rw [if_pos hn]
    decide
  · rw [if_neg hn]
    intro hmem
    rw [List.mem_reverse] at hmem
    rcases List.mem_map.mp hmem with ⟨d, hd, hdc⟩
    exact digitChar_ne_dash d (Nat.digits_lt_base (by norm_num) hd) hdc

theorem append_dash_inj : ∀ (a b x y : List Char),
    '-' ∉ a → '-' ∉ b → a ++ '-' :: x = b ++ '-' :: y → a = b ∧ x = y := by
  intro a
  induction a with
  | nil =>
    intro b x y _ hb h
    cases b with
    | nil => simpa using h
    | cons d ds =>
      exfalso
      simp only [List.nil_append, List.cons_append, List.cons.injEq] at h
      exact hb (h.1 ▸ List.mem_cons_self d ds)
  | cons c cs ih =>
    intro b x y ha hb h
    cases b with
    | nil =>
      exfalso
      simp only [List.cons_append, List.nil_append, List.cons.injEq] at h
      exact ha (h.1 ▸ List.mem_cons_self c cs)
    | cons d ds =>
      simp only [List.cons_append, List.cons.injEq] at h
      have ha2 : '-' ∉ cs := fun hm => ha (List.mem_cons_of_mem _ hm)
      have hb2 : '-' ∉ ds := fun hm => hb (List.mem_cons_of_mem _ hm)
      obtain ⟨h1, h2⟩ := ih ds x y ha2 hb2 h.2
      exact ⟨by simp [h.1, h1], h2⟩

theorem requestIdServices_data (t r : ℕ) :
    (requestIdServices t r).data
      = 'o' :: 'r' :: 'd' :: 'e' :: 'r' :: '-' ::
          (natChars t ++ '-' :: natChars r) := by
  show ((("order-" ++ natStr t) ++ "-") ++ natStr r).data = _
  have e : ∀ s u : String, (s ++ u).data = s.data ++ u.data := fun _ _ => rfl
  rw [e, e, e]
  simp [natStr, List.append_assoc]

theorem requestIdPart003_data (t : ℕ) :
    (requestIdPart003 t).data
      = 'o' :: 'r' :: 'd' :: 'e' :: 'r' :: '-' :: natChars t := by
  show ("order-" ++ natStr t).data = _
  have e : ∀ s u : String, (s ++ u).data = s.data ++ u.data := fun _ _ => rfl
  rw [e]
  simp [natStr]

/-- Claim C4 (amended): an idempotency key determines, and is determined by,
its entropy inputs: two createOrder attempts get equal
`order-time-random` keys exactly when both their millisecond clock
values and their scaled random draws coincide, and two attempts of the
clock-only variant get equal keys exactly when their millisecond clock
values coincide.  Keys therefore differ whenever the clock has advanced or
the random draw differs, and only then. -/
theorem requestId_entropy_spec (t1 r1 t2 r2 : ℕ) :
    (requestIdServices t1 r1 = requestIdServices t2 r2 ↔ t1 = t2 ∧ r1 = r2)
    ∧ (requestIdPart003 t1 = requestIdPart003 t2 ↔ t1 = t2) := by
  constructor
  · constructor
    · intro h
      have hd := congrArg String.data h
      rw [requestIdServices_data, requestIdServices_data] at hd
      simp only [List.cons.injEq, true_and] at hd
      obtain ⟨h1, h2⟩ := append_dash_inj _ _ _ _
        (dash_not_mem_natChars t1) (dash_not_mem_natChars t2) hd
      exact ⟨natChars_inj _ _ h1, natChars_inj _ _ h2⟩
    · rintro ⟨rfl, rfl⟩
      rfl
  · constructor
    · intro h
      have hd := congrArg String.data h
      rw [requestIdPart003_data, requestIdPart003_data] at hd
      simp only [List.cons.injEq, true_and] at hd
      exact natChars_inj _ _ hd
    · rintro rfl
      rfl

/-- Witness for C4 (amended): two attempts in the same millisecond but with
different random draws produce distinct keys. -/
theorem requestId_entropy_spec_witness :
    requestIdServices 1700000000000 7 ≠ requestIdServices 1700000000000 8 :=
  fun h => by
    have h2 := (requestId_entropy_spec 1700000000000 7 1700000000000 8).1.mp h
    exact absurd h2.2 (by decide)

/-- Counterexample for C4 as stated: two sequential createOrder attempts can
reuse the same idempotency key, since nothing prevents the clock (and the
random draw, where present) from repeating: concretely, two attempts in the
same millisecond with the same draw share the key, so keys do not differ for
every pair of sequential invocations. -/
theorem requestId_collision :
    ¬ (∀ t1 r1 t2 r2 : ℕ, t1 ≤ t2 →
        requestIdServices t1 r1 ≠ requestIdServices t2 r2)
    ∧ ¬ (∀ t1 t2 : ℕ, t1 ≤ t2 → requestIdPart003 t1 ≠ requestIdPart003 t2) :=
  ⟨fun hc => hc 1700000000000 999 1700000000000 999 le_rfl rfl,
   fun hc => hc 1700000000000 1700000000000 le_rfl rfl⟩

end Paypal
